import Mathlib

/-!
Verification of the petrophysical-property and initial-state assembly of
`Ewoms::EclProblem` (src/tests/problems/eclproblem.hh).

The embedding models `Scalar` (`double`) as `ℚ`, `Dune::FieldMatrix<Scalar,3,3>`
(`DimMatrix`) as `Fin 3 → Fin 3 → ℚ`, deck / eclipse-state arrays as
`List ℚ` (indexed by origin-grid a.k.a. cartesian index, absent keywords as
`none`), and the mesh as the number of active degrees of freedom together with
the `grid.globalCell()` map from active (dof) index to cartesian index.
`OPM_THROW` is `Except.error`, a C++ `assert` is a fatal check.
-/

namespace EclProblem

/-- A `DimMatrix`: `Dune::FieldMatrix<Scalar, 3, 3>` with `Scalar` as `ℚ`. -/
abbrev Tensor := Fin 3 → Fin 3 → ℚ

/-- `K = 0.0`: the zero assignment a `DimMatrix` receives before its diagonal
entries are filled in. -/
def zeroTensor : Tensor := fun _ _ => 0

/-- `K[i][j] = v`: assignment to a single entry of a `DimMatrix`. -/
def setEntry (K : Tensor) (i j : Fin 3) (v : ℚ) : Tensor :=
  fun a b => if a = i ∧ b = j then v else K a b

/-- `K *= c`: in-place multiplication of every entry of a `DimMatrix` by a
scalar. -/
def scaleTensor (c : ℚ) (K : Tensor) : Tensor :=
  fun i j => K i j * c

/-- Modelled from the spec: `Opm::utils::harmonicAverage` comes from opm-core's
`Average.hpp`, which is not among this repository's files.  The spec defines it
as the componentwise value `2ab/(a+b)` with the convention that an average
against a zero component yields zero. -/
def harmonicAverage (a b : ℚ) : ℚ :=
  if a = 0 ∨ b = 0 then 0 else 2 * a * b / (a + b)

/-- The mesh data the assembly reads: `model().numDof()` active cells,
`grid.globalCell()` taking an active (dof) index to its origin (cartesian)
index, and `grid.logicalCartesianSize()`. -/
structure Grid where
  numDof : Nat
  globalCell : Nat → Nat
  cartSize : Nat × Nat × Nat

/-- `cartSize[0] * cartSize[1] * cartSize[2]`, the full logical grid size. -/
def Grid.numCartesianCells (g : Grid) : Nat :=
  g.cartSize.1 * g.cartSize.2.1 * g.cartSize.2.2

/-- The double-valued grid properties that `readMaterialParameters_` queries
from the eclipse state; a `none` field is an absent keyword
(`hasDoubleGridProperty` returns false).  Arrays are indexed by cartesian
index. -/
structure EclipseState where
  permx : Option (List ℚ)
  permy : Option (List ℚ)
  permz : Option (List ℚ)
  ntg : Option (List ℚ)

/-- The permeability part of `readMaterialParameters_` (eclproblem.hh,
lines 439-474): `PERMX` must be present (fatal otherwise), `PERMY` and `PERMZ`
default to the `PERMX` data, each active cell gets a zero-initialized tensor
whose diagonal is filled from the arrays at the cell's cartesian index, and
when `NTG` is present its per-cell value scales the X and Y diagonal
entries. -/
def assemblePermeability (es : EclipseState) (grid : Grid) :
    Except String (List Tensor) :=
  match es.permx with
  | none =>
    Except.error "Can't read the intrinsic permeability from the eclipse state. (The PERM\x7bX,Y,Z\x7d keywords are missing)"
  | some permxData =>
    let permyData := es.permy.getD permxData
    let permzData := es.permz.getD permxData
    let perms := (List.range grid.numDof).map (fun dofIdx =>
      let cartesianElemIdx := grid.globalCell dofIdx
      setEntry (setEntry (setEntry zeroTensor 0 0 (permxData.getD cartesianElemIdx 0))
          1 1 (permyData.getD cartesianElemIdx 0))
        2 2 (permzData.getD cartesianElemIdx 0))
    match es.ntg with
    | none => Except.ok perms
    | some ntgData =>
      Except.ok ((List.range grid.numDof).map (fun dofIdx =>
        let cartesianElemIdx := grid.globalCell dofIdx
        let K := perms.getD dofIdx zeroTensor
        let K0 := setEntry K 0 0 (K 0 0 * ntgData.getD cartesianElemIdx 0)
        setEntry K0 1 1 (K0 1 1 * ntgData.getD cartesianElemIdx 0)))

/-- The effective diagonal factor the `NTG` keyword contributes to a cell's X
and Y permeability entries: the cell's `NTG` value when the keyword is present
and `1` otherwise (used only to state theorems). -/
def ntgFactor (es : EclipseState) (cartesianElemIdx : Nat) : ℚ :=
  match es.ntg with
  | none => 1
  | some ntgData => ntgData.getD cartesianElemIdx 0

/-- The six directional transmissibility-multiplier arrays
(`MULTX`, `MULTX-`, `MULTY`, `MULTY-`, `MULTZ`, `MULTZ-`), each defaulting to
all ones when its keyword is absent; indexed by cartesian index. -/
structure Multipliers where
  multx : Nat → ℚ
  multxMinus : Nat → ℚ
  multy : Nat → ℚ
  multyMinus : Nat → ℚ
  multz : Nat → ℚ
  multzMinus : Nat → ℚ

/-- One interior intersection of the leaf grid view: the interior element's
active index (`inside`), the exterior element's active index (`outside`) and
`indexInInside()`, the local index of the interior element's face containing
the intersection. -/
structure Intersection where
  inside : Nat
  outside : Nat
  insideFaceIdx : Nat
deriving DecidableEq

/-- The canonical intersection index (eclproblem.hh, lines 770-773):
`min(a,b) * numElements + max(a,b)`. -/
def faceKey (numElements a b : Nat) : Nat :=
  min a b * numElements + max a b

/-- The directional-multiplier adjustment of the two cell permeabilities
(eclproblem.hh, lines 779-816): local faces 1/0 are right/left (X plus/minus),
3/2 back/front (Y plus/minus), 5/4 top/bottom (Z plus/minus); any other local
face index leaves both tensors unscaled. -/
def applyMultipliers (perm : Nat → Tensor) (globalCell : Nat → Nat)
    (m : Multipliers) (it : Intersection) : Tensor × Tensor :=
  let K1 := perm it.inside
  let K2 := perm it.outside
  let interiorElemCartIdx := globalCell it.inside
  let exteriorElemCartIdx := globalCell it.outside
  if it.insideFaceIdx = 1 then
    (scaleTensor (m.multx interiorElemCartIdx) K1,
     scaleTensor (m.multxMinus exteriorElemCartIdx) K2)
  else if it.insideFaceIdx = 0 then
    (scaleTensor (m.multxMinus interiorElemCartIdx) K1,
     scaleTensor (m.multx exteriorElemCartIdx) K2)
  else if it.insideFaceIdx = 3 then
    (scaleTensor (m.multy interiorElemCartIdx) K1,
     scaleTensor (m.multyMinus exteriorElemCartIdx) K2)
  else if it.insideFaceIdx = 2 then
    (scaleTensor (m.multyMinus interiorElemCartIdx) K1,
     scaleTensor (m.multy exteriorElemCartIdx) K2)
  else if it.insideFaceIdx = 5 then
    (scaleTensor (m.multz interiorElemCartIdx) K1,
     scaleTensor (m.multzMinus exteriorElemCartIdx) K2)
  else if it.insideFaceIdx = 4 then
    (scaleTensor (m.multzMinus interiorElemCartIdx) K1,
     scaleTensor (m.multz exteriorElemCartIdx) K2)
  else (K1, K2)

/-- The tensor stored for one intersection: the componentwise harmonic average
of the two multiplier-adjusted cell tensors (eclproblem.hh, lines 818-823). -/
def faceTensor (perm : Nat → Tensor) (globalCell : Nat → Nat) (m : Multipliers)
    (it : Intersection) : Tensor :=
  fun i j =>
    harmonicAverage ((applyMultipliers perm globalCell m it).1 i j)
      ((applyMultipliers perm globalCell m it).2 i j)

/-- `intersectionIntrinsicPermeability_.count(intersectIdx) > 0` on the
association-list model of the hash map. -/
def hasKey (fm : List (Nat × Tensor)) (k : Nat) : Bool :=
  fm.any (fun p => p.1 == k)

/-- The body of the intersection loop (eclproblem.hh, lines 761-824): compute
the intersection index, skip when it was already seen from the other side,
otherwise adjust the two cell tensors by the directional multipliers and store
their componentwise harmonic average. -/
def insertFace (numElements : Nat) (perm : Nat → Tensor) (globalCell : Nat → Nat)
    (m : Multipliers) (fm : List (Nat × Tensor)) (it : Intersection) :
    List (Nat × Tensor) :=
  let intersectIdx := faceKey numElements it.inside it.outside
  if hasKey fm intersectIdx then fm
  else (intersectIdx, faceTensor perm globalCell m it) :: fm

/-- `computeFaceIntrinsicPermeabilities_` (eclproblem.hh, lines 723-826): fold
the intersection loop over the interior intersections of the traversal (the
boundary ones, skipped by the `neighbor()` test, are not listed). -/
def computeFaceIntrinsicPermeabilities (numElements : Nat) (perm : Nat → Tensor)
    (globalCell : Nat → Nat) (m : Multipliers) (its : List Intersection) :
    List (Nat × Tensor) :=
  its.foldl (insertFace numElements perm globalCell m) []

/-- How many entries of the face map carry the key `k`. -/
def keyCount (fm : List (Nat × Tensor)) (k : Nat) : Nat :=
  (fm.map Prod.fst).count k

/-- Modelled from the spec: the black-oil model's phase and component
numbering lives in the external fluid system, outside this repository; the
spec names the water, oil and gas phases and the water, oil and gas
components, and only their distinctness is relied upon here. -/
def waterPhaseIdx : Fin 3 := 0

/-- Modelled from the spec: the oil phase index of the external fluid
system. -/
def oilPhaseIdx : Fin 3 := 1

/-- Modelled from the spec: the gas phase index of the external fluid
system. -/
def gasPhaseIdx : Fin 3 := 2

/-- Modelled from the spec: the water component index of the external fluid
system. -/
def waterCompIdx : Fin 3 := 0

/-- Modelled from the spec: the oil component index of the external fluid
system. -/
def oilCompIdx : Fin 3 := 1

/-- Modelled from the spec: the gas component index of the external fluid
system. -/
def gasCompIdx : Fin 3 := 2

/-- A `CompositionalFluidState`: temperature, per-phase saturation and
pressure, and the phase-by-component mole-fraction matrix. -/
structure FluidState where
  temperature : ℚ
  saturation : Fin 3 → ℚ
  pressure : Fin 3 → ℚ
  moleFraction : Fin 3 → Fin 3 → ℚ

/-- A default-constructed fluid state (the content of
`initialFluidStates_.resize(numDof)` before the loop fills it). -/
def initFluidState : FluidState :=
  { temperature := 0, saturation := fun _ => 0, pressure := fun _ => 0,
    moleFraction := fun _ _ => 0 }

/-- `fs.setTemperature(v)`. -/
def setTemperature (fs : FluidState) (v : ℚ) : FluidState :=
  { fs with temperature := v }

/-- `fs.setSaturation(phaseIdx, v)`. -/
def setSaturation (fs : FluidState) (phaseIdx : Fin 3) (v : ℚ) : FluidState :=
  { fs with saturation := Function.update fs.saturation phaseIdx v }

/-- `fs.setPressure(phaseIdx, v)`. -/
def setPressure (fs : FluidState) (phaseIdx : Fin 3) (v : ℚ) : FluidState :=
  { fs with pressure := Function.update fs.pressure phaseIdx v }

/-- `fs.setMoleFraction(phaseIdx, compIdx, v)`. -/
def setMoleFraction (fs : FluidState) (phaseIdx compIdx : Fin 3) (v : ℚ) :
    FluidState :=
  { fs with moleFraction := fun p c =>
      if p = phaseIdx ∧ c = compIdx then v else fs.moleFraction p c }

/-- The black-oil PVT capabilities of the external `FluidSystem`
(initialized from the deck's `PVTO`/`PVTW`/`PVDG`/`DENSITY` tables by
`initFluidSystem_` before `readInitialCondition_` runs): formation volume
factor and gas dissolution factor as functions of pressure, surface densities
by phase, and molar masses by component. -/
structure FluidSystemData where
  oilFormationVolumeFactor : ℚ → ℚ
  gasDissolutionFactor : ℚ → ℚ
  surfaceDensity : Fin 3 → ℚ
  molarMass : Fin 3 → ℚ

/-- The oil-phase gas mole fraction of `readInitialCondition_`
(eclproblem.hh, lines 697-714): `Bo`, `Rs`, `rhoo = surfaceDensity(oil)/Bo`
and `rhogref` are read from the fluid system at the oil pressure, the
dissolved-gas mass fraction is `XoG = Rs * rhogref / rhoo`, and it is
converted to a mole fraction through the component molar masses as
`xoG = XoG * MO / ((MO - MG) * XoG + MG)`. -/
def dissolvedGasMoleFraction (fsys : FluidSystemData) (oilPressure : ℚ) : ℚ :=
  let Bo := fsys.oilFormationVolumeFactor oilPressure
  let Rs := fsys.gasDissolutionFactor oilPressure
  let rhoo := fsys.surfaceDensity oilPhaseIdx / Bo
  let rhogref := fsys.surfaceDensity gasPhaseIdx
  let XoG := Rs * rhogref / rhoo
  let MG := fsys.molarMass gasCompIdx
  let MO := fsys.molarMass oilCompIdx
  XoG * MO / ((MO - MG) * XoG + MG)

/-- The body of the per-dof loop of `readInitialCondition_` (eclproblem.hh,
lines 651-720): temperature, the three saturations (oil as one minus water
minus gas), the oil pressure replicated on every phase, all mole fractions
reset to zero, single-component water and gas phases, and the oil-phase
composition from the black-oil correlations. -/
def computeInitialFluidState (fsys : FluidSystemData) (temperature : ℚ)
    (waterSaturationData gasSaturationData pressureData : List ℚ)
    (grid : Grid) (dofIdx : Nat) : FluidState :=
  let cartesianDofIdx := grid.globalCell dofIdx
  let s1 := setTemperature initFluidState temperature
  let s2 := setSaturation s1 waterPhaseIdx (waterSaturationData.getD cartesianDofIdx 0)
  let s3 := setSaturation s2 gasPhaseIdx (gasSaturationData.getD cartesianDofIdx 0)
  let s4 := setSaturation s3 oilPhaseIdx
    (1 - waterSaturationData.getD cartesianDofIdx 0
       - gasSaturationData.getD cartesianDofIdx 0)
  let oilPressure := pressureData.getD cartesianDofIdx 0
  let s5 := setPressure (setPressure (setPressure s4 0 oilPressure) 1 oilPressure)
    2 oilPressure
  let s6 := { s5 with moleFraction := fun _ _ => (0 : ℚ) }
  let s7 := setMoleFraction s6 waterPhaseIdx waterCompIdx 1
  let s8 := setMoleFraction s7 gasPhaseIdx gasCompIdx 1
  let xoG := dissolvedGasMoleFraction fsys oilPressure
  let xoO := 1 - xoG
  let s9 := setMoleFraction s8 oilPhaseIdx gasCompIdx xoG
  setMoleFraction s9 oilPhaseIdx oilCompIdx xoO

/-- The initial-state keywords `readInitialCondition_` reads from the deck;
a `none` field is an absent keyword (`hasKeyword` returns false). -/
structure Deck where
  swat : Option (List ℚ)
  sgas : Option (List ℚ)
  pressure : Option (List ℚ)
  rs : Option (List ℚ)

/-- Modelled from the spec: `deck->getKeyword(name)` belongs to the external
deck store (opm-parser), whose contract surfaces a missing required property
as the sole error signal, naming the key. -/
def getKeywordData (name : String) (data : Option (List ℚ)) :
    Except String (List ℚ) :=
  match data with
  | none => Except.error ("Keyword " ++ name ++ " not in deck.")
  | some d => Except.ok d

/-- `readInitialCondition_` (eclproblem.hh, lines 614-721): the explicit
`hasKeyword` checks for `SWAT`/`SGAS` and `PRESSURE`, the four keyword
fetches (the `RS` fetch has no preceding check and fails through the deck
store itself), the four size assertions against the cartesian cell count, and
the per-dof state loop. -/
def readInitialCondition (deck : Deck) (fsys : FluidSystemData)
    (temperature : ℚ) (grid : Grid) : Except String (List FluidState) :=
  if deck.swat.isNone || deck.sgas.isNone then
    Except.error "So far, the Eclipse input file requires the presence of the SWAT and SGAS keywords"
  else if deck.pressure.isNone then
    Except.error "So far, the Eclipse input file requires the presence of the PRESSURE keyword"
  else
    match getKeywordData "SWAT" deck.swat with
    | Except.error e => Except.error e
    | Except.ok waterSaturationData =>
      match getKeywordData "SGAS" deck.sgas with
      | Except.error e => Except.error e
      | Except.ok gasSaturationData =>
        match getKeywordData "PRESSURE" deck.pressure with
        | Except.error e => Except.error e
        | Except.ok pressureData =>
          match getKeywordData "RS" deck.rs with
          | Except.error e => Except.error e
          | Except.ok rsData =>
            if waterSaturationData.length ≠ grid.numCartesianCells then
              Except.error "assert failed: waterSaturationData.size() == numCartesianCells"
            else if gasSaturationData.length ≠ grid.numCartesianCells then
              Except.error "assert failed: gasSaturationData.size() == numCartesianCells"
            else if pressureData.length ≠ grid.numCartesianCells then
              Except.error "assert failed: pressureData.size() == numCartesianCells"
            else if rsData.length ≠ grid.numCartesianCells then
              Except.error "assert failed: rsData.size() == numCartesianCells"
            else
              Except.ok ((List.range grid.numDof).map
                (computeInitialFluidState fsys temperature waterSaturationData
                  gasSaturationData pressureData grid))

/-- The `SATNUM` part of `readMaterialParameters_` (eclproblem.hh,
lines 564-582): when the keyword is absent the per-cell table-index array is
cleared; when present, the loop asserts `1 <= satnumData[dofIdx] <=
numSatfuncTables` and stores `satnumData[cartesianElemIdx] - 1` for each dof
(note the differing indices, reproduced from the source). An assertion
failure is fatal (`none`). -/
def readSatnum (satnumData : Option (List Int)) (numSatfuncTables : Nat)
    (grid : Grid) : Option (List Int) :=
  match satnumData with
  | none => some []
  | some data =>
    if (List.range grid.numDof).all (fun dofIdx =>
        decide (1 ≤ data.getD dofIdx 0)
          && decide (data.getD dofIdx 0 ≤ (numSatfuncTables : Int))) then
      some ((List.range grid.numDof).map (fun dofIdx =>
        data.getD (grid.globalCell dofIdx) 0 - 1))
    else none

/-- `materialLawParams` (eclproblem.hh, lines 330-340), reduced to the table
index it selects: entry `globalSpaceIdx` of the per-cell array when that
array is non-empty, table `0` otherwise. -/
def materialLawParamsTableIdx (materialParamTableIdx : List Int)
    (globalSpaceIdx : Nat) : Int :=
  if 0 < materialParamTableIdx.length then
    materialParamTableIdx.getD globalSpaceIdx 0
  else 0

/-- One `SWOF` table: water saturation, water relative permeability, oil
relative permeability in the oil-water system and oil-water capillary
pressure columns. -/
structure SwofTable where
  sw : List ℚ
  krw : List ℚ
  krow : List ℚ
  pcow : List ℚ

/-- One `SGOF` table: gas saturation, oil relative permeability in the
gas-oil system, gas relative permeability and gas-oil capillary pressure
columns. -/
structure SgofTable where
  sg : List ℚ
  krog : List ℚ
  krg : List ℚ
  pcog : List ℚ

/-- The sample columns handed to one `PiecewiseLinearTwoPhaseMaterial`
parameter object (its internal finalize step is the external two-phase law's
own contract). -/
structure TwoPhaseParams where
  SwSamples : List ℚ
  KrwSamples : List ℚ
  KrnSamples : List ℚ
  PcnwSamples : List ℚ

/-- One per-region three-phase material-law parameter object: the oil-water
and the gas-oil two-phase parameter bundles. -/
structure MaterialLawParamsT where
  oilWaterParams : TwoPhaseParams
  gasOilParams : TwoPhaseParams

/-- The saturation-function part of `readMaterialParameters_`
(eclproblem.hh, lines 520-562): the `SWOF` and `SGOF` table counts must match
(a fatal assertion otherwise), and per table the oil-water columns are used
as sampled, while the gas-oil curve re-expresses each gas-saturation sample
`Sg` as `1 - Sg`. -/
def buildMaterialParams (swofTables : List SwofTable)
    (sgofTables : List SgofTable) : Option (List MaterialLawParamsT) :=
  if swofTables.length = sgofTables.length then
    some ((List.range swofTables.length).map (fun tableIdx =>
      let swofTable := swofTables.getD tableIdx ⟨[], [], [], []⟩
      let sgofTable := sgofTables.getD tableIdx ⟨[], [], [], []⟩
      let owParams : TwoPhaseParams :=
        ⟨swofTable.sw, swofTable.krw, swofTable.krow, swofTable.pcow⟩
      let SoSamples := sgofTable.sg.map (fun Sg => 1 - Sg)
      let goParams : TwoPhaseParams :=
        ⟨SoSamples, sgofTable.krog, sgofTable.krg, sgofTable.pcog⟩
      MaterialLawParamsT.mk owParams goParams))
  else none

/-- All-ones multipliers: every `MULT*` keyword absent. -/
def onesMultipliers : Multipliers :=
  ⟨fun _ => 1, fun _ => 1, fun _ => 1, fun _ => 1, fun _ => 1, fun _ => 1⟩

/-- A one-cell grid whose single active cell is its own origin cell. -/
def grid1 : Grid := ⟨1, fun i => i, (1, 1, 1)⟩

/-- A grid with one active cell whose origin index is 1: the cell at origin
index 0 was removed as inactive (dof index and cartesian index differ). -/
def gridInactive : Grid := ⟨1, fun _ => 1, (2, 1, 1)⟩

/-- A two-sided traversal of one interface between cells 0 and 1: once from
cell 0 (its right face, local index 1) and once from cell 1 (its left face,
local index 0). -/
def its0 : List Intersection := [⟨0, 1, 1⟩, ⟨1, 0, 0⟩]

/-- The first directed visit of the interface of `its0`. -/
def iv0 : Intersection := ⟨0, 1, 1⟩

/-- An eclipse state with `PERMX`, `PERMY` and `NTG` present and `PERMZ`
absent (defaulting to the `PERMX` data). -/
def esNtg : EclipseState := ⟨some [4], some [6], none, some [1/2]⟩

/-- The cell tensors `assemblePermeability` produces for `esNtg` on
`grid1`. -/
def permsNtg : List Tensor := (assemblePermeability esNtg grid1).toOption.getD []

/-- An eclipse state with only `PERMX` present. -/
def esSimple : EclipseState := ⟨some [1], none, none, none⟩

/-- The cell tensors `assemblePermeability` produces for `esSimple` on
`grid1`. -/
def permsSimple : List Tensor :=
  (assemblePermeability esSimple grid1).toOption.getD []

/-- A concrete fluid system whose capabilities all return 1. -/
def fsys1 : FluidSystemData := ⟨fun _ => 1, fun _ => 1, fun _ => 1, fun _ => 1⟩

/-- A complete one-cell initial-state deck. -/
def deck2 : Deck := ⟨some [3/10], some [1/5], some [2], some [50]⟩

/-- The initial fluid states computed from `deck2`. -/
def states2 : List FluidState :=
  (readInitialCondition deck2 fsys1 293 grid1).toOption.getD []

/-- A deck whose `RS` keyword is absent. -/
def deckNoRs : Deck := ⟨some [0], some [0], some [0], none⟩

/-- An `SWOF` table with empty columns. -/
def swofEmpty : SwofTable := ⟨[], [], [], []⟩

/-- `msg` mentions `key` verbatim. -/
def namesKey (msg key : String) : Prop :=
  ∃ pre post, msg = pre ++ key ++ post

/-- A tensor's off-diagonal entries are all zero. -/
def offDiagZero (K : Tensor) : Prop :=
  ∀ i j : Fin 3, i ≠ j → K i j = 0

/-! ### Helper lemmas -/

theorem getD_range_map {α : Type} (f : Nat → α) (n i : Nat) (d : α)
    (h : i < n) : ((List.range n).map f).getD i d = f i := by
  rw [List.getD_eq_getElem?_getD, List.getElem?_map, List.getElem?_range h]
  rfl

theorem getD_mem_or_default {α : Type} (l : List α) (c : Nat) (d : α) :
    l.getD c d ∈ l ∨ l.getD c d = d := by
  induction l generalizing c with
  | nil => right; rfl
  | cons a t ih =>
    cases c with
    | zero => left; exact List.mem_cons_self a t
    | succ n =>
      rcases ih n with h | h
      · left; exact List.mem_cons_of_mem a h
      · right; exact h

theorem harmonicAverage_zero_zero : harmonicAverage 0 0 = 0 := by
  simp [harmonicAverage]

theorem offDiagZero_zeroTensor : offDiagZero zeroTensor := by
  intro i j _; rfl

theorem offDiagZero_setEntry (K : Tensor) (d : Fin 3) (v : ℚ)
    (h : offDiagZero K) : offDiagZero (setEntry K d d v) := by
  intro i j hij
  unfold setEntry
  by_cases hc : i = d ∧ j = d
  · exact absurd (hc.1.trans hc.2.symm) hij
  · rw [if_neg hc]; exact h i j hij

theorem offDiagZero_scaleTensor (c : ℚ) (K : Tensor) (h : offDiagZero K) :
    offDiagZero (scaleTensor c K) := by
  intro i j hij
  unfold scaleTensor
  rw [h i j hij, zero_mul]

theorem offDiagZero_applyMultipliers (perm : Nat → Tensor)
    (globalCell : Nat → Nat) (m : Multipliers) (it : Intersection)
    (h : ∀ c, offDiagZero (perm c)) :
    offDiagZero (applyMultipliers perm globalCell m it).1
    ∧ offDiagZero (applyMultipliers perm globalCell m it).2 := by
  unfold applyMultipliers
  dsimp only
  split_ifs <;>
    first
      | exact ⟨offDiagZero_scaleTensor _ _ (h _), offDiagZero_scaleTensor _ _ (h _)⟩
      | exact ⟨h _, h _⟩

theorem hasKey_eq_true_iff {fm : List (Nat × Tensor)} {k : Nat} :
    hasKey fm k = true ↔ k ∈ fm.map Prod.fst := by
  unfold hasKey
  rw [List.any_eq_true]
  constructor
  · rintro ⟨p, hp, hbeq⟩
    exact List.mem_map.mpr ⟨p, hp, beq_iff_eq.mp hbeq⟩
  · intro hm
    rcases List.mem_map.mp hm with ⟨p, hp, hpk⟩
    exact ⟨p, hp, beq_iff_eq.mpr hpk⟩

theorem hasKey_cons (p : Nat × Tensor) (fm : List (Nat × Tensor)) (k : Nat) :
    hasKey (p :: fm) k = ((p.1 == k) || hasKey fm k) := rfl

theorem keys_nodup_insertFace (numElements : Nat) (perm : Nat → Tensor)
    (globalCell : Nat → Nat) (m : Multipliers) (fm : List (Nat × Tensor))
    (it : Intersection) (h : (fm.map Prod.fst).Nodup) :
    ((insertFace numElements perm globalCell m fm it).map Prod.fst).Nodup := by
  unfold insertFace
  by_cases hk : hasKey fm (faceKey numElements it.inside it.outside) = true
  · rw [if_pos hk]; exact h
  · rw [if_neg hk]
    refine List.nodup_cons.mpr ⟨?_, h⟩
    intro hmem
    exact hk (hasKey_eq_true_iff.mpr hmem)

theorem keys_nodup_foldl (numElements : Nat) (perm : Nat → Tensor)
    (globalCell : Nat → Nat) (m : Multipliers) (its : List Intersection) :
    ∀ fm : List (Nat × Tensor), (fm.map Prod.fst).Nodup →
      ((its.foldl (insertFace numElements perm globalCell m) fm).map
        Prod.fst).Nodup := by
  induction its with
  | nil => intro fm h; exact h
  | cons a l ih =>
    intro fm h
    exact ih _ (keys_nodup_insertFace numElements perm globalCell m fm a h)

theorem hasKey_insertFace_mono (numElements : Nat) (perm : Nat → Tensor)
    (globalCell : Nat → Nat) (m : Multipliers) (fm : List (Nat × Tensor))
    (it : Intersection) (k : Nat) (h : hasKey fm k = true) :
    hasKey (insertFace numElements perm globalCell m fm it) k = true := by
  unfold insertFace
  by_cases hk : hasKey fm (faceKey numElements it.inside it.outside) = true
  · rw [if_pos hk]; exact h
  · rw [if_neg hk, hasKey_cons, h, Bool.or_true]

theorem hasKey_insertFace_self (numElements : Nat) (perm : Nat → Tensor)
    (globalCell : Nat → Nat) (m : Multipliers) (fm : List (Nat × Tensor))
    (it : Intersection) :
    hasKey (insertFace numElements perm globalCell m fm it)
      (faceKey numElements it.inside it.outside) = true := by
  unfold insertFace
  by_cases hk : hasKey fm (faceKey numElements it.inside it.outside) = true
  · rw [if_pos hk]; exact hk
  · rw [if_neg hk, hasKey_cons]
    simp

theorem hasKey_foldl_mono (numElements : Nat) (perm : Nat → Tensor)
    (globalCell : Nat → Nat) (m : Multipliers) (k : Nat)
    (its : List Intersection) :
    ∀ fm : List (Nat × Tensor), hasKey fm k = true →
      hasKey (its.foldl (insertFace numElements perm globalCell m) fm) k
        = true := by
  induction its with
  | nil => intro fm h; exact h
  | cons a l ih =>
    intro fm h
    exact ih _ (hasKey_insertFace_mono numElements perm globalCell m fm a k h)

theorem hasKey_foldl_of_mem (numElements : Nat) (perm : Nat → Tensor)
    (globalCell : Nat → Nat) (m : Multipliers) (it : Intersection)
    (its : List Intersection) :
    ∀ fm : List (Nat × Tensor), it ∈ its →
      hasKey (its.foldl (insertFace numElements perm globalCell m) fm)
        (faceKey numElements it.inside it.outside) = true := by
  induction its with
  | nil => intro fm h; cases h
  | cons a l ih =>
    intro fm h
    rcases List.mem_cons.mp h with rfl | hl
    · exact hasKey_foldl_mono numElements perm globalCell m _ l _
        (hasKey_insertFace_self numElements perm globalCell m fm it)
    · exact ih _ hl

theorem keyCount_eq_one (fm : List (Nat × Tensor)) (k : Nat)
    (hn : (fm.map Prod.fst).Nodup) (hk : hasKey fm k = true) :
    keyCount fm k = 1 := by
  have h1 : keyCount fm k ≤ 1 := List.nodup_iff_count_le_one.mp hn k
  have h2 : 0 < keyCount fm k := by
    unfold keyCount
    exact List.count_pos_iff.mpr (hasKey_eq_true_iff.mp hk)
  omega

theorem mem_foldl_insertFace (numElements : Nat) (perm : Nat → Tensor)
    (globalCell : Nat → Nat) (m : Multipliers) (its : List Intersection) :
    ∀ (fm : List (Nat × Tensor)) (p : Nat × Tensor),
      p ∈ its.foldl (insertFace numElements perm globalCell m) fm →
      p ∈ fm ∨ ∃ it ∈ its,
        p = (faceKey numElements it.inside it.outside,
             faceTensor perm globalCell m it) := by
  induction its with
  | nil => intro fm p h; exact Or.inl h
  | cons a l ih =>
    intro fm p h
    rcases ih _ p h with h1 | ⟨it, hi, he⟩
    · unfold insertFace at h1
      by_cases hk : hasKey fm (faceKey numElements a.inside a.outside) = true
      · rw [if_pos hk] at h1; exact Or.inl h1
      · rw [if_neg hk] at h1
        rcases List.mem_cons.mp h1 with he | hm
        · exact Or.inr ⟨a, List.mem_cons_self a l, he⟩
        · exact Or.inl hm
    · exact Or.inr ⟨it, List.mem_cons_of_mem a hi, he⟩

/-! ### Claim theorems -/

/-- Claim C1: for every physical interior interface between active cells `a`
and `b` that the traversal visits, the face-permeability map holds exactly one
entry, stored under the canonical key `min(a,b) * numElements + max(a,b)`,
regardless of which side's enumeration visits the interface first; the key is
identical seen from either side, and a visit whose key is already present
inserts nothing. -/
theorem face_map_unique_entry (numElements : Nat) (perm : Nat → Tensor)
    (globalCell : Nat → Nat) (m : Multipliers) (its : List Intersection)
    (a b : Nat) (it : Intersection) (hmem : it ∈ its)
    (hside : (it.inside = a ∧ it.outside = b)
      ∨ (it.inside = b ∧ it.outside = a)) :
    keyCount (computeFaceIntrinsicPermeabilities numElements perm globalCell m
        its) (faceKey numElements a b) = 1
    ∧ faceKey numElements a b = faceKey numElements b a
    ∧ ∀ (fm : List (Nat × Tensor)) (it2 : Intersection),
        hasKey fm (faceKey numElements it2.inside it2.outside) = true →
        insertFace numElements perm globalCell m fm it2 = fm := by
  have hsym : ∀ x y : Nat, faceKey numElements x y = faceKey numElements y x := by
    intro x y
    unfold faceKey
    rw [Nat.min_comm, Nat.max_comm]
  have hkey : faceKey numElements it.inside it.outside
      = faceKey numElements a b := by
    rcases hside with ⟨h1, h2⟩ | ⟨h1, h2⟩
    · rw [h1, h2]
    · rw [h1, h2, hsym]
  refine ⟨?_, hsym a b, ?_⟩
  · apply keyCount_eq_one
    · exact keys_nodup_foldl numElements perm globalCell m its [] (by simp)
    · rw [← hkey]
      exact hasKey_foldl_of_mem numElements perm globalCell m it its [] hmem
  · intro fm it2 h
    unfold insertFace
    rw [if_pos h]

/-- Claim C1, witness: on a two-cell traversal that visits the single
interface from both sides, the final map holds exactly one entry under the
canonical key. -/
theorem face_map_unique_entry_witness :
    iv0 ∈ its0
    ∧ (keyCount (computeFaceIntrinsicPermeabilities 2 (fun _ => zeroTensor)
          (fun c => c) onesMultipliers its0) (faceKey 2 0 1) = 1
       ∧ faceKey 2 0 1 = faceKey 2 1 0
       ∧ ∀ (fm : List (Nat × Tensor)) (it2 : Intersection),
           hasKey fm (faceKey 2 it2.inside it2.outside) = true →
           insertFace 2 (fun _ => zeroTensor) (fun c => c) onesMultipliers fm
             it2 = fm) :=
  ⟨by decide,
   face_map_unique_entry 2 (fun _ => zeroTensor) (fun c => c) onesMultipliers
     its0 0 1 iv0 (by decide) (Or.inl ⟨rfl, rfl⟩)⟩

/-- Claim C2: every stored face tensor is, componentwise, the harmonic
average of the two multiplier-adjusted cell tensors of the intersection that
inserted it; the harmonic average is symmetric, zero-preserving, and equals
`2ab/(a+b)` on nonzero components. -/
theorem face_tensor_componentwise_harmonic (numElements : Nat)
    (perm : Nat → Tensor) (globalCell : Nat → Nat) (m : Multipliers)
    (its : List Intersection) :
    (∀ p ∈ computeFaceIntrinsicPermeabilities numElements perm globalCell m its,
      ∃ it ∈ its,
        p.1 = faceKey numElements it.inside it.outside ∧
        ∀ i j : Fin 3,
          p.2 i j
            = harmonicAverage ((applyMultipliers perm globalCell m it).1 i j)
                ((applyMultipliers perm globalCell m it).2 i j))
    ∧ (∀ x y : ℚ, harmonicAverage x y = harmonicAverage y x)
    ∧ (∀ x : ℚ, harmonicAverage x 0 = 0)
    ∧ (∀ x y : ℚ, x ≠ 0 → y ≠ 0
        → harmonicAverage x y = 2 * x * y / (x + y)) := by
  refine ⟨?_, ?_, ?_, ?_⟩
  · intro p hp
    rcases mem_foldl_insertFace numElements perm globalCell m its [] p hp with
      h | ⟨it, hi, he⟩
    · cases h
    · exact ⟨it, hi, by rw [he], fun i j => by rw [he]; rfl⟩
  · intro x y
    unfold harmonicAverage
    by_cases h : x = 0 ∨ y = 0
    · rw [if_pos h, if_pos h.symm]
    · rw [if_neg h, if_neg (fun hc => h hc.symm)]
      ring_nf
  · intro x
    simp [harmonicAverage]
  · intro x y hx hy
    unfold harmonicAverage
    rw [if_neg (not_or.mpr ⟨hx, hy⟩)]

/-- Claim C3: local faces 1/0 are the X plus/minus pair, 3/2 the Y
plus/minus pair, 5/4 the Z plus/minus pair; on a plus face the plus-direction
multiplier scales the interior cell's tensor and the minus-direction
multiplier the exterior cell's, and vice versa on a minus face; a local face
index outside 0..5 leaves both tensors unscaled. -/
theorem multiplier_orientation (perm : Nat → Tensor) (globalCell : Nat → Nat)
    (m : Multipliers) (it : Intersection) :
    (it.insideFaceIdx = 1 → applyMultipliers perm globalCell m it
      = (scaleTensor (m.multx (globalCell it.inside)) (perm it.inside),
         scaleTensor (m.multxMinus (globalCell it.outside)) (perm it.outside)))
    ∧ (it.insideFaceIdx = 0 → applyMultipliers perm globalCell m it
      = (scaleTensor (m.multxMinus (globalCell it.inside)) (perm it.inside),
         scaleTensor (m.multx (globalCell it.outside)) (perm it.outside)))
    ∧ (it.insideFaceIdx = 3 → applyMultipliers perm globalCell m it
      = (scaleTensor (m.multy (globalCell it.inside)) (perm it.inside),
         scaleTensor (m.multyMinus (globalCell it.outside)) (perm it.outside)))
    ∧ (it.insideFaceIdx = 2 → applyMultipliers perm globalCell m it
      = (scaleTensor (m.multyMinus (globalCell it.inside)) (perm it.inside),
         scaleTensor (m.multy (globalCell it.outside)) (perm it.outside)))
    ∧ (it.insideFaceIdx = 5 → applyMultipliers perm globalCell m it
      = (scaleTensor (m.multz (globalCell it.inside)) (perm it.inside),
         scaleTensor (m.multzMinus (globalCell it.outside)) (perm it.outside)))
    ∧ (it.insideFaceIdx = 4 → applyMultipliers perm globalCell m it
      = (scaleTensor (m.multzMinus (globalCell it.inside)) (perm it.inside),
         scaleTensor (m.multz (globalCell it.outside)) (perm it.outside)))
    ∧ (5 < it.insideFaceIdx → applyMultipliers perm globalCell m it
      = (perm it.inside, perm it.outside)) := by
  refine ⟨?_, ?_, ?_, ?_, ?_, ?_, ?_⟩ <;> intro h
  · simp [applyMultipliers, h]
  · simp [applyMultipliers, h]
  · simp [applyMultipliers, h]
  · simp [applyMultipliers, h]
  · simp [applyMultipliers, h]
  · simp [applyMultipliers, h]
  · have h1 : it.insideFaceIdx ≠ 1 := by omega
    have h0 : it.insideFaceIdx ≠ 0 := by omega
    have h3 : it.insideFaceIdx ≠ 3 := by omega
    have h2 : it.insideFaceIdx ≠ 2 := by omega
    have h5 : it.insideFaceIdx ≠ 5 := by omega
    have h4 : it.insideFaceIdx ≠ 4 := by omega
    simp [applyMultipliers, h1, h0, h3, h2, h5, h4]

/-- Claim C8: each active cell's tensor carries `PERMX`/`PERMY`/`PERMZ` (the
Y and Z arrays defaulting to the X array when absent) on its diagonal, read at
the cell's cartesian index, the X and Y entries scaled by the cell's `NTG`
value when that keyword is present (and `Z` never), and all off-diagonal
entries zero. -/
theorem cell_permeability_tensor (es : EclipseState) (grid : Grid)
    (permxData : List ℚ) (hx : es.permx = some permxData)
    (perms : List Tensor)
    (hok : assemblePermeability es grid = Except.ok perms)
    (dofIdx : Nat) (hdof : dofIdx < grid.numDof) :
    (perms.getD dofIdx zeroTensor) 0 0
      = permxData.getD (grid.globalCell dofIdx) 0
          * ntgFactor es (grid.globalCell dofIdx)
    ∧ (perms.getD dofIdx zeroTensor) 1 1
      = (es.permy.getD permxData).getD (grid.globalCell dofIdx) 0
          * ntgFactor es (grid.globalCell dofIdx)
    ∧ (perms.getD dofIdx zeroTensor) 2 2
      = (es.permz.getD permxData).getD (grid.globalCell dofIdx) 0
    ∧ ∀ i j : Fin 3, i ≠ j → (perms.getD dofIdx zeroTensor) i j = 0 := by
  unfold assemblePermeability at hok
  rw [hx] at hok
  cases hntg : es.ntg with
  | none =>
    rw [hntg] at hok
    simp only at hok
    injection hok with hok
    subst hok
    rw [getD_range_map _ _ _ _ hdof]
    simp only [ntgFactor, hntg]
    refine ⟨?_, ?_, rfl, ?_⟩
    · rw [mul_one]; rfl
    · rw [mul_one]; rfl
    · exact offDiagZero_setEntry _ 2 _ (offDiagZero_setEntry _ 1 _
        (offDiagZero_setEntry _ 0 _ offDiagZero_zeroTensor))
  | some ntgData =>
    rw [hntg] at hok
    simp only at hok
    injection hok with hok
    subst hok
    rw [getD_range_map _ _ _ _ hdof, getD_range_map _ _ _ _ hdof]
    simp only [ntgFactor, hntg]
    refine ⟨rfl, rfl, rfl, ?_⟩
    · exact offDiagZero_setEntry _ 1 _ (offDiagZero_setEntry _ 0 _
        (offDiagZero_setEntry _ 2 _ (offDiagZero_setEntry _ 1 _
          (offDiagZero_setEntry _ 0 _ offDiagZero_zeroTensor))))

/-- Claim C8, witness: on a one-cell grid with `PERMX = [4]`, `PERMY = [6]`,
`PERMZ` absent and `NTG = [1/2]`, the assembled tensor satisfies the claim. -/
theorem cell_permeability_tensor_witness :
    (permsNtg.getD 0 zeroTensor) 0 0
      = ([(4 : ℚ)]).getD (grid1.globalCell 0) 0
          * ntgFactor esNtg (grid1.globalCell 0)
    ∧ (permsNtg.getD 0 zeroTensor) 1 1
      = (esNtg.permy.getD [(4 : ℚ)]).getD (grid1.globalCell 0) 0
          * ntgFactor esNtg (grid1.globalCell 0)
    ∧ (permsNtg.getD 0 zeroTensor) 2 2
      = (esNtg.permz.getD [(4 : ℚ)]).getD (grid1.globalCell 0) 0
    ∧ ∀ i j : Fin 3, i ≠ j → (permsNtg.getD 0 zeroTensor) i j = 0 :=
  cell_permeability_tensor esNtg grid1 [(4 : ℚ)] rfl permsNtg rfl 0
    (by decide)

/-- Claim C10: every per-cell tensor the assembly produces and every stored
face tensor built from those cells has all off-diagonal entries exactly
zero. -/
theorem offdiagonal_entries_zero (es : EclipseState) (grid : Grid)
    (perms : List Tensor)
    (hok : assemblePermeability es grid = Except.ok perms)
    (numElements : Nat) (globalCell2 : Nat → Nat) (m : Multipliers)
    (its : List Intersection) :
    (∀ K ∈ perms, offDiagZero K)
    ∧ (∀ p ∈ computeFaceIntrinsicPermeabilities numElements
          (fun c => perms.getD c zeroTensor) globalCell2 m its,
        offDiagZero p.2) := by
  have hcell : ∀ K ∈ perms, offDiagZero K := by
    unfold assemblePermeability at hok
    cases hx : es.permx with
    | none => rw [hx] at hok; cases hok
    | some permxData =>
      rw [hx] at hok
      cases hntg : es.ntg with
      | none =>
        rw [hntg] at hok
        simp only at hok
        injection hok with hok
        subst hok
        intro K hK
        rcases List.mem_map.mp hK with ⟨d, _, rfl⟩
        exact offDiagZero_setEntry _ 2 _ (offDiagZero_setEntry _ 1 _
          (offDiagZero_setEntry _ 0 _ offDiagZero_zeroTensor))
      | some ntgData =>
        rw [hntg] at hok
        simp only at hok
        injection hok with hok
        subst hok
        intro K hK
        rcases List.mem_map.mp hK with ⟨d, _, rfl⟩
        have hbase : offDiagZero (((List.range grid.numDof).map (fun dofIdx =>
            setEntry (setEntry (setEntry zeroTensor 0 0
                (permxData.getD (grid.globalCell dofIdx) 0))
              1 1 ((es.permy.getD permxData).getD (grid.globalCell dofIdx) 0))
              2 2 ((es.permz.getD permxData).getD (grid.globalCell dofIdx)
                0))).getD d zeroTensor) := by
          rcases getD_mem_or_default ((List.range grid.numDof).map _) d
            zeroTensor with hm | hd
          · rcases List.mem_map.mp hm with ⟨c, _, hc⟩
            rw [← hc]
            exact offDiagZero_setEntry _ 2 _ (offDiagZero_setEntry _ 1 _
              (offDiagZero_setEntry _ 0 _ offDiagZero_zeroTensor))
          · rw [hd]
            exact offDiagZero_zeroTensor
        exact offDiagZero_setEntry _ 1 _ (offDiagZero_setEntry _ 0 _ hbase)
  refine ⟨hcell, ?_⟩
  have hperm : ∀ c, offDiagZero (perms.getD c zeroTensor) := by
    intro c
    rcases getD_mem_or_default perms c zeroTensor with hm | hd
    · exact hcell _ hm
    · rw [hd]; exact offDiagZero_zeroTensor
  intro p hp
  rcases mem_foldl_insertFace numElements (fun c => perms.getD c zeroTensor)
    globalCell2 m its [] p hp with h | ⟨it, _, he⟩
  · cases h
  · intro i j hij
    rw [he]
    have hA := offDiagZero_applyMultipliers
      (fun c => perms.getD c zeroTensor) globalCell2 m it hperm
    show harmonicAverage _ _ = 0
    rw [hA.1 i j hij, hA.2 i j hij]
    exact harmonicAverage_zero_zero

/-- Claim C10, witness: the concrete one-cell assembly and a face traversal
over it have all off-diagonal entries zero. -/
theorem offdiagonal_entries_zero_witness :
    assemblePermeability esSimple grid1 = Except.ok permsSimple
    ∧ ((∀ K ∈ permsSimple, offDiagZero K)
       ∧ (∀ p ∈ computeFaceIntrinsicPermeabilities 1
             (fun c => permsSimple.getD c zeroTensor) (fun c => c)
             onesMultipliers its0,
           offDiagZero p.2)) :=
  ⟨rfl, offdiagonal_entries_zero esSimple grid1 permsSimple rfl 1
    (fun c => c) onesMultipliers its0⟩

theorem readInitialCondition_ok (deck : Deck) (fsys : FluidSystemData)
    (temperature : ℚ) (grid : Grid) (states : List FluidState)
    (swatData sgasData pressureData : List ℚ)
    (hsw : deck.swat = some swatData) (hsg : deck.sgas = some sgasData)
    (hp : deck.pressure = some pressureData)
    (hok : readInitialCondition deck fsys temperature grid
      = Except.ok states) :
    states = (List.range grid.numDof).map
      (computeInitialFluidState fsys temperature swatData sgasData
        pressureData grid) := by
  unfold readInitialCondition at hok
  rw [hsw, hsg, hp] at hok
  cases hrs : deck.rs with
  | none =>
    rw [hrs] at hok
    simp [getKeywordData] at hok
  | some rsData =>
    rw [hrs] at hok
    simp only [getKeywordData, Option.isNone_some, Bool.or_self,
      Bool.false_eq_true, if_false] at hok
    split at hok
    · cases hok
    · split at hok
      · cases hok
      · split at hok
        · cases hok
        · split at hok
          · cases hok
          · injection hok with hok
            exact hok.symm

/-- Claim C4: each cell's initial water and gas saturations are the raw deck
values at the cell's origin (cartesian) index, the oil saturation is one
minus water minus gas with no clamping, so the three sum to one exactly, and
the single raw oil pressure is set identically on all three phases. -/
theorem initial_saturations_pressures (deck : Deck) (fsys : FluidSystemData)
    (temperature : ℚ) (grid : Grid) (states : List FluidState)
    (swatData sgasData pressureData : List ℚ)
    (hsw : deck.swat = some swatData) (hsg : deck.sgas = some sgasData)
    (hp : deck.pressure = some pressureData)
    (hok : readInitialCondition deck fsys temperature grid
      = Except.ok states)
    (dofIdx : Nat) (hdof : dofIdx < grid.numDof) :
    (states.getD dofIdx initFluidState).saturation waterPhaseIdx
      = swatData.getD (grid.globalCell dofIdx) 0
    ∧ (states.getD dofIdx initFluidState).saturation gasPhaseIdx
      = sgasData.getD (grid.globalCell dofIdx) 0
    ∧ (states.getD dofIdx initFluidState).saturation oilPhaseIdx
      = 1 - swatData.getD (grid.globalCell dofIdx) 0
          - sgasData.getD (grid.globalCell dofIdx) 0
    ∧ (states.getD dofIdx initFluidState).saturation waterPhaseIdx
        + (states.getD dofIdx initFluidState).saturation gasPhaseIdx
        + (states.getD dofIdx initFluidState).saturation oilPhaseIdx = 1
    ∧ ∀ phaseIdx : Fin 3, (states.getD dofIdx initFluidState).pressure phaseIdx
        = pressureData.getD (grid.globalCell dofIdx) 0 := by
  have hs := readInitialCondition_ok deck fsys temperature grid states
    swatData sgasData pressureData hsw hsg hp hok
  subst hs
  rw [getD_range_map _ _ _ _ hdof]
  refine ⟨rfl, rfl, rfl, ?_, ?_⟩
  · show swatData.getD (grid.globalCell dofIdx) 0
      + sgasData.getD (grid.globalCell dofIdx) 0
      + (1 - swatData.getD (grid.globalCell dofIdx) 0
           - sgasData.getD (grid.globalCell dofIdx) 0) = 1
    ring
  · intro phaseIdx
    fin_cases phaseIdx <;> rfl

/-- Claim C4, witness: the saturation and pressure contract evaluated on the
concrete one-cell deck `deck2`. -/
theorem initial_saturations_pressures_witness :
    (states2.getD 0 initFluidState).saturation waterPhaseIdx
      = ([(3 : ℚ)/10]).getD (grid1.globalCell 0) 0
    ∧ (states2.getD 0 initFluidState).saturation gasPhaseIdx
      = ([(1 : ℚ)/5]).getD (grid1.globalCell 0) 0
    ∧ (states2.getD 0 initFluidState).saturation oilPhaseIdx
      = 1 - ([(3 : ℚ)/10]).getD (grid1.globalCell 0) 0
          - ([(1 : ℚ)/5]).getD (grid1.globalCell 0) 0
    ∧ (states2.getD 0 initFluidState).saturation waterPhaseIdx
        + (states2.getD 0 initFluidState).saturation gasPhaseIdx
        + (states2.getD 0 initFluidState).saturation oilPhaseIdx = 1
    ∧ ∀ phaseIdx : Fin 3, (states2.getD 0 initFluidState).pressure phaseIdx
        = ([(2 : ℚ)]).getD (grid1.globalCell 0) 0 :=
  initial_saturations_pressures deck2 fsys1 293 grid1 states2
    [(3 : ℚ)/10] [(1 : ℚ)/5] [(2 : ℚ)] rfl rfl rfl rfl 0 (by decide)

/-- Claim C5: each cell's water and gas phases are single-component, the
oil-phase gas mole fraction is the black-oil value
`xoG = XoG * MO / ((MO - MG) * XoG + MG)` with `XoG = Rs * rhogref / rhoo`
evaluated at the cell's oil pressure (see `dissolvedGasMoleFraction`), the
oil-phase oil mole fraction is `1 - xoG`, and every phase's mole fractions
sum to one exactly. -/
theorem initial_mole_fractions (deck : Deck) (fsys : FluidSystemData)
    (temperature : ℚ) (grid : Grid) (states : List FluidState)
    (swatData sgasData pressureData : List ℚ)
    (hsw : deck.swat = some swatData) (hsg : deck.sgas = some sgasData)
    (hp : deck.pressure = some pressureData)
    (hok : readInitialCondition deck fsys temperature grid
      = Except.ok states)
    (dofIdx : Nat) (hdof : dofIdx < grid.numDof) :
    (∀ compIdx : Fin 3,
      (states.getD dofIdx initFluidState).moleFraction waterPhaseIdx compIdx
        = if compIdx = waterCompIdx then 1 else 0)
    ∧ (∀ compIdx : Fin 3,
      (states.getD dofIdx initFluidState).moleFraction gasPhaseIdx compIdx
        = if compIdx = gasCompIdx then 1 else 0)
    ∧ (states.getD dofIdx initFluidState).moleFraction oilPhaseIdx gasCompIdx
      = dissolvedGasMoleFraction fsys
          (pressureData.getD (grid.globalCell dofIdx) 0)
    ∧ (states.getD dofIdx initFluidState).moleFraction oilPhaseIdx oilCompIdx
      = 1 - dissolvedGasMoleFraction fsys
          (pressureData.getD (grid.globalCell dofIdx) 0)
    ∧ ∀ phaseIdx : Fin 3,
        (states.getD dofIdx initFluidState).moleFraction phaseIdx 0
          + (states.getD dofIdx initFluidState).moleFraction phaseIdx 1
          + (states.getD dofIdx initFluidState).moleFraction phaseIdx 2
          = 1 := by
  have hs := readInitialCondition_ok deck fsys temperature grid states
    swatData sgasData pressureData hsw hsg hp hok
  subst hs
  rw [getD_range_map _ _ _ _ hdof]
  refine ⟨?_, ?_, rfl, rfl, ?_⟩
  · intro compIdx
    fin_cases compIdx <;> rfl
  · intro compIdx
    fin_cases compIdx <;> rfl
  · intro phaseIdx
    fin_cases phaseIdx
    · show (1 : ℚ) + 0 + 0 = 1
      norm_num
    · show (0 : ℚ)
        + (1 - dissolvedGasMoleFraction fsys
            (pressureData.getD (grid.globalCell dofIdx) 0))
        + dissolvedGasMoleFraction fsys
            (pressureData.getD (grid.globalCell dofIdx) 0) = 1
      ring
    · show (0 : ℚ) + 0 + 1 = 1
      norm_num

/-- Claim C5, witness: the mole-fraction contract evaluated on the concrete
one-cell deck `deck2`. -/
theorem initial_mole_fractions_witness :
    (∀ compIdx : Fin 3,
      (states2.getD 0 initFluidState).moleFraction waterPhaseIdx compIdx
        = if compIdx = waterCompIdx then 1 else 0)
    ∧ (∀ compIdx : Fin 3,
      (states2.getD 0 initFluidState).moleFraction gasPhaseIdx compIdx
        = if compIdx = gasCompIdx then 1 else 0)
    ∧ (states2.getD 0 initFluidState).moleFraction oilPhaseIdx gasCompIdx
      = dissolvedGasMoleFraction fsys1
          (([(2 : ℚ)]).getD (grid1.globalCell 0) 0)
    ∧ (states2.getD 0 initFluidState).moleFraction oilPhaseIdx oilCompIdx
      = 1 - dissolvedGasMoleFraction fsys1
          (([(2 : ℚ)]).getD (grid1.globalCell 0) 0)
    ∧ ∀ phaseIdx : Fin 3,
        (states2.getD 0 initFluidState).moleFraction phaseIdx 0
          + (states2.getD 0 initFluidState).moleFraction phaseIdx 1
          + (states2.getD 0 initFluidState).moleFraction phaseIdx 2
          = 1 :=
  initial_mole_fractions deck2 fsys1 293 grid1 states2
    [(3 : ℚ)/10] [(1 : ℚ)/5] [(2 : ℚ)] rfl rfl rfl rfl 0 (by decide)

/-- Claim C7: when any of the required initial-state keywords (`SWAT`,
`SGAS`, `PRESSURE`, `RS`) is absent, initial-state computation fails with an
error that names a missing key, and no per-cell states are produced. -/
theorem missing_initial_arrays_fatal (deck : Deck) (fsys : FluidSystemData)
    (temperature : ℚ) (grid : Grid)
    (habs : deck.swat = none ∨ deck.sgas = none ∨ deck.pressure = none
      ∨ deck.rs = none) :
    ∃ e, readInitialCondition deck fsys temperature grid = Except.error e
      ∧ ((deck.swat = none ∧ namesKey e "SWAT")
         ∨ (deck.sgas = none ∧ namesKey e "SGAS")
         ∨ (deck.pressure = none ∧ namesKey e "PRESSURE")
         ∨ (deck.rs = none ∧ namesKey e "RS"))
      ∧ ∀ states, readInitialCondition deck fsys temperature grid
          ≠ Except.ok states := by
  have main : ∃ e,
      readInitialCondition deck fsys temperature grid = Except.error e
      ∧ ((deck.swat = none ∧ namesKey e "SWAT")
         ∨ (deck.sgas = none ∧ namesKey e "SGAS")
         ∨ (deck.pressure = none ∧ namesKey e "PRESSURE")
         ∨ (deck.rs = none ∧ namesKey e "RS")) := by
    cases hsw : deck.swat with
    | none =>
      refine ⟨"So far, the Eclipse input file requires the presence of the SWAT and SGAS keywords", ?_, ?_⟩
      · unfold readInitialCondition
        rw [hsw]
        rfl
      · exact Or.inl ⟨rfl,
          "So far, the Eclipse input file requires the presence of the ",
          " and SGAS keywords", rfl⟩
    | some swatData =>
      cases hsg : deck.sgas with
      | none =>
        refine ⟨"So far, the Eclipse input file requires the presence of the SWAT and SGAS keywords", ?_, ?_⟩
        · unfold readInitialCondition
          rw [hsw, hsg]
          rfl
        · exact Or.inr (Or.inl ⟨rfl,
            "So far, the Eclipse input file requires the presence of the SWAT and ",
            " keywords", rfl⟩)
      | some sgasData =>
        cases hp : deck.pressure with
        | none =>
          refine ⟨"So far, the Eclipse input file requires the presence of the PRESSURE keyword", ?_, ?_⟩
          · unfold readInitialCondition
            rw [hsw, hsg, hp]
            rfl
          · exact Or.inr (Or.inr (Or.inl ⟨rfl,
              "So far, the Eclipse input file requires the presence of the ",
              " keyword", rfl⟩))
        | some pressData =>
          cases hrs : deck.rs with
          | none =>
            refine ⟨"Keyword RS not in deck.", ?_, ?_⟩
            · unfold readInitialCondition
              rw [hsw, hsg, hp, hrs]
              rfl
            · exact Or.inr (Or.inr (Or.inr ⟨rfl, "Keyword ",
                " not in deck.", rfl⟩))
          | some rsData =>
            rcases habs with h | h | h | h
            · rw [hsw] at h; cases h
            · rw [hsg] at h; cases h
            · rw [hp] at h; cases h
            · rw [hrs] at h; cases h
  rcases main with ⟨e, he, hn⟩
  refine ⟨e, he, hn, ?_⟩
  intro states hok
  rw [he] at hok
  cases hok

/-- Claim C7, witness: on a deck lacking `RS`, initial-state computation
fails with an error naming a missing key and produces no states. -/
theorem missing_initial_arrays_fatal_witness :
    (deckNoRs.swat = none ∨ deckNoRs.sgas = none ∨ deckNoRs.pressure = none
      ∨ deckNoRs.rs = none)
    ∧ ∃ e, readInitialCondition deckNoRs fsys1 293 grid1 = Except.error e
        ∧ ((deckNoRs.swat = none ∧ namesKey e "SWAT")
           ∨ (deckNoRs.sgas = none ∧ namesKey e "SGAS")
           ∨ (deckNoRs.pressure = none ∧ namesKey e "PRESSURE")
           ∨ (deckNoRs.rs = none ∧ namesKey e "RS"))
        ∧ ∀ states, readInitialCondition deckNoRs fsys1 293 grid1
            ≠ Except.ok states :=
  ⟨Or.inr (Or.inr (Or.inr rfl)),
   missing_initial_arrays_fatal deckNoRs fsys1 293 grid1
     (Or.inr (Or.inr (Or.inr rfl)))⟩

/-- Claim C6, code evaluation at the failing input: on a grid whose single
active cell has origin index 1, with `SATNUM = [1, 5]` and one saturation
table, the range check inspects `satnumData[dofIdx] = 1` and passes, yet the
stored per-cell value is `satnumData[cartesianElemIdx] - 1 = 4`, which the
per-cell lookup then returns, although the raw per-cell value 5 lies outside
`[1, 1]` and the claim requires it to be rejected. -/
theorem satnum_range_check_misses_origin_values :
    readSatnum (some [1, 5]) 1 gridInactive = some [4]
    ∧ materialLawParamsTableIdx [4] 0 = 4
    ∧ ¬((5 : Int) ≤ 1) := by decide

/-- Claim C9: when the `SWOF` and `SGOF` table counts differ, the
saturation-law build fails and produces no material-law set. -/
theorem satfunc_table_count_mismatch (swofTables : List SwofTable)
    (sgofTables : List SgofTable)
    (h : swofTables.length ≠ sgofTables.length) :
    buildMaterialParams swofTables sgofTables = none
    ∧ ∀ ps, buildMaterialParams swofTables sgofTables ≠ some ps := by
  constructor
  · unfold buildMaterialParams
    rw [if_neg h]
  · intro ps hps
    unfold buildMaterialParams at hps
    rw [if_neg h] at hps
    cases hps

/-- Claim C9, witness: one `SWOF` table against zero `SGOF` tables is
rejected. -/
theorem satfunc_table_count_mismatch_witness :
    ([swofEmpty].length ≠ ([] : List SgofTable).length)
    ∧ (buildMaterialParams [swofEmpty] [] = none
       ∧ ∀ ps, buildMaterialParams [swofEmpty] [] ≠ some ps) :=
  ⟨by decide, satfunc_table_count_mismatch [swofEmpty] [] (by decide)⟩

end EclProblem
